import Mathlib

/-!
Shallow embedding of the odds/EV/Kelly/arbitrage calculation engine of the
sports-card repository (frontend/src/utils/mockData.ts) and of the input
validators (frontend/src/utils/validation.ts).

JavaScript numbers are modelled as exact rationals (`Rat`); `Math.round`
rounds half toward positive infinity, modelled by `jsRound`; `Math.abs` is
`|·|`.  Inputs that may be `NaN`/`±Infinity` (the validation layer) are
modelled by the dedicated type `JSNum`.
-/

namespace SportsCard

/-- JS `Math.round`: round to the nearest integer, half toward +∞. -/
def jsRound (q : Rat) : Int := Int.floor (q + 1/2)

/-- `americanToDecimal` from mockData.ts:
`if (americanOdds < 0) return 100 / Math.abs(americanOdds) + 1;
 else return americanOdds / 100 + 1;` -/
def americanToDecimal (americanOdds : Rat) : Rat :=
  if americanOdds < 0 then 100 / |americanOdds| + 1
  else americanOdds / 100 + 1

/-- `americanToImpliedProbability` from mockData.ts:
`if (americanOdds < 0) return Math.abs(americanOdds) / (Math.abs(americanOdds) + 100);
 else return 100 / (americanOdds + 100);` -/
def americanToImpliedProbability (americanOdds : Rat) : Rat :=
  if americanOdds < 0 then |americanOdds| / (|americanOdds| + 100)
  else 100 / (americanOdds + 100)

/-- `decimalToAmerican` from mockData.ts:
`if (decimalOdds >= 2) return Math.round((decimalOdds - 1) * 100);
 else return Math.round(-100 / (decimalOdds - 1));` -/
def decimalToAmerican (decimalOdds : Rat) : Int :=
  if 2 ≤ decimalOdds then jsRound ((decimalOdds - 1) * 100)
  else jsRound (-100 / (decimalOdds - 1))

/-- `calculateEVPercentage` from mockData.ts. -/
def calculateEVPercentage (yourProbability americanOdds : Rat) : Rat :=
  yourProbability * (americanToDecimal americanOdds - 1) - (1 - yourProbability)

/-- `calculateEVDollars` from mockData.ts. -/
def calculateEVDollars (betAmount evPercentage : Rat) : Rat :=
  betAmount * evPercentage

/-- `calculateKellyCriterion` from mockData.ts:
returns 0 when `evPercentage <= 0`, otherwise
`Math.max(0, evPercentage / (decimalOdds - 1))`. -/
def calculateKellyCriterion (evPercentage americanOdds : Rat) : Rat :=
  if evPercentage ≤ 0 then 0
  else max 0 (evPercentage / (americanToDecimal americanOdds - 1))

/-- The `"full" | "half" | "quarter"` literal type of `calculateBetSize`. -/
inductive KellyScale
  | full
  | half
  | quarter
deriving DecidableEq

/-- The `fractionMap` object literal inside `calculateBetSize`:
`{full: 1, half: 0.5, quarter: 0.25}`. -/
def fractionMap : KellyScale → Rat
  | .full => 1
  | .half => 1/2
  | .quarter => 1/4

/-- `calculateBetSize` from mockData.ts:
`bankroll * kellyPercentage * fraction`. -/
def calculateBetSize (bankroll kellyPercentage : Rat)
    (kellyFraction : KellyScale) : Rat :=
  bankroll * kellyPercentage * fractionMap kellyFraction

/-- Return shape of `detectArbitrage`. -/
structure ArbResult where
  hasArbitrage : Bool
  arbPercentage : Rat
deriving DecidableEq

/-- `detectArbitrage` from mockData.ts. -/
def detectArbitrage (oddsA oddsB : Rat) : ArbResult :=
  let probA := americanToImpliedProbability oddsA
  let probB := americanToImpliedProbability oddsB
  let probSum := probA + probB
  let hasArbitrage := decide (probSum < 1)
  let arbPercentage := if hasArbitrage then (1 / probSum - 1) * 100 else 0
  { hasArbitrage := hasArbitrage, arbPercentage := arbPercentage }

/-- `Math.round(x * 100) / 100` — round to 2 decimal places. -/
def round2 (x : Rat) : Rat := (jsRound (x * 100) : Rat) / 100

/-- `Math.round(x * 10000) / 10000` — round to 4 decimal places. -/
def round4 (x : Rat) : Rat := (jsRound (x * 10000) : Rat) / 10000

/-- One element of the array returned by `calculateArbProfitScenarios`. -/
structure HedgeScenario where
  odds : Rat
  requiredBet : Rat
  profit : Rat
  roi : Rat
deriving DecidableEq, Inhabited

/-- The default value of the `testOdds` parameter of
`calculateArbProfitScenarios`. -/
def defaultTestOdds : List Rat :=
  [-150, -140, -130, -120, -110, 110, 120, 130, 140, 150]

/-- `calculateArbProfitScenarios` from mockData.ts, with the `testOdds`
argument passed explicitly. -/
def calculateArbProfitScenarios (sideAOdds betAmount : Rat)
    (testOdds : List Rat) : List HedgeScenario :=
  let decimalOddsA := americanToDecimal sideAOdds
  testOdds.map fun sideBOdds =>
    let decimalOddsB := americanToDecimal sideBOdds
    let hedgeBet := betAmount * decimalOddsA / decimalOddsB
    let profit := betAmount * decimalOddsA - betAmount - hedgeBet
    let totalRisk := betAmount + hedgeBet
    let roi := if 0 < totalRisk then profit / totalRisk else 0
    { odds := sideBOdds
      requiredBet := round2 hedgeBet
      profit := round2 profit
      roi := round4 roi }

/-- `calculateArbProfitScenarios` called without a `testOdds` argument:
the TS default parameter supplies `defaultTestOdds`. -/
def calculateArbProfitScenariosDefault (sideAOdds betAmount : Rat) :
    List HedgeScenario :=
  calculateArbProfitScenarios sideAOdds betAmount defaultTestOdds

/-- The `"sharps" | "pm"` literal type of `completeAnalysis`. -/
inductive Side
  | sharps
  | pm
deriving DecidableEq

/-- Return shape of `completeAnalysis`. -/
structure CompleteAnalysisResult where
  sharpsImpliedProb : Rat
  pmImpliedProb : Rat
  edgeVsSharps : Rat
  edgeVsPM : Rat
  recommendedSide : Side
  evPercentage : Rat
  fullKellyPercent : Rat
  halfKellyBetSize : Rat
  quarterKellyBetSize : Rat
  arbInfo : ArbResult
deriving DecidableEq

/-- `completeAnalysis` from mockData.ts. -/
def completeAnalysis (sharpsOdds pmOdds yourProbabilityAgainstFav bankroll : Rat) :
    CompleteAnalysisResult :=
  let sharpsImpliedProb := americanToImpliedProbability sharpsOdds
  let pmImpliedProb := americanToImpliedProbability pmOdds
  let edgeVsSharps := calculateEVPercentage yourProbabilityAgainstFav sharpsOdds
  let edgeVsPM := calculateEVPercentage yourProbabilityAgainstFav pmOdds
  let recommendedSide := if edgeVsSharps > edgeVsPM then Side.sharps else Side.pm
  let evPercentage := if recommendedSide = Side.sharps then edgeVsSharps else edgeVsPM
  let recommendedOdds := if recommendedSide = Side.sharps then sharpsOdds else pmOdds
  let fullKellyPercent := calculateKellyCriterion evPercentage recommendedOdds
  { sharpsImpliedProb := sharpsImpliedProb
    pmImpliedProb := pmImpliedProb
    edgeVsSharps := edgeVsSharps
    edgeVsPM := edgeVsPM
    recommendedSide := recommendedSide
    evPercentage := evPercentage
    fullKellyPercent := fullKellyPercent
    halfKellyBetSize := calculateBetSize bankroll fullKellyPercent .half
    quarterKellyBetSize := calculateBetSize bankroll fullKellyPercent .quarter
    arbInfo := detectArbitrage sharpsOdds pmOdds }

/-- A JavaScript number as seen by the validation layer: either a finite
value (an exact rational) or one of the non-finite values. -/
inductive JSNum
  | nan
  | posInf
  | negInf
  | num (q : Rat)
deriving DecidableEq

/-- JS `isNaN` restricted to numbers. -/
def jsIsNaN : JSNum → Bool
  | .nan => true
  | _ => false

/-- JS `<=` on numbers: false whenever an operand is `NaN`. -/
def jsLe : JSNum → JSNum → Bool
  | .nan, _ => false
  | _, .nan => false
  | .negInf, _ => true
  | _, .negInf => false
  | _, .posInf => true
  | .posInf, _ => false
  | .num a, .num b => decide (a ≤ b)

/-- JS `<` on numbers: false whenever an operand is `NaN`. -/
def jsLt : JSNum → JSNum → Bool
  | .nan, _ => false
  | _, .nan => false
  | .negInf, .negInf => false
  | .negInf, _ => true
  | _, .negInf => false
  | .posInf, _ => false
  | _, .posInf => true
  | .num a, .num b => decide (a < b)

/-- JS `===` on numbers: false whenever an operand is `NaN`. -/
def jsEqNum : JSNum → JSNum → Bool
  | .posInf, .posInf => true
  | .negInf, .negInf => true
  | .num a, .num b => decide (a = b)
  | _, _ => false

/-- Return shape of the single-field validators in validation.ts. -/
structure ValidationResult where
  isValid : Bool
  error : Option String
deriving DecidableEq

/-- `validateBankroll` from validation.ts.  The argument is typed `number`,
so the `typeof amount !== 'number'` disjunct cannot fire; the `isNaN`
check remains. -/
def validateBankroll (amount : JSNum) : ValidationResult :=
  if jsIsNaN amount then
    { isValid := false, error := some "Bankroll must be a valid number" }
  else if jsLt amount (.num 0) then
    { isValid := false, error := some "Bankroll cannot be negative" }
  else if jsLt (.num 1000000) amount then
    { isValid := false, error := some "Bankroll exceeds maximum allowed ($1,000,000)" }
  else
    { isValid := true, error := none }

/-- `validateOdds` from validation.ts.  The argument is typed `number`,
so the `typeof odds !== 'number'` disjunct cannot fire; the `isNaN`
check remains. -/
def validateOdds (odds : JSNum) : ValidationResult :=
  if jsIsNaN odds then
    { isValid := false, error := some "Odds must be a valid number" }
  else if !(jsLe (.num (-1000)) odds && jsLe odds (.num 10000)) then
    { isValid := false, error := some "Odds must be between -1000 and 10000" }
  else if jsEqNum odds (.num 0) then
    { isValid := false, error := some "Odds cannot be zero" }
  else
    { isValid := true, error := none }

/-! ## Helper lemmas -/

theorem jsRound_intCast (n : Int) : jsRound (n : Rat) = n := by
  unfold jsRound
  rw [add_comm, Int.floor_add_int]
  norm_num

theorem one_le_americanToDecimal (o : Rat) : 1 ≤ americanToDecimal o := by
  unfold americanToDecimal
  split
  · have h1 : 0 < |o| := abs_pos.mpr (ne_of_lt ‹o < 0›)
    have h2 : 0 ≤ (100 : Rat) / |o| := le_of_lt (div_pos (by norm_num) h1)
    linarith
  · have h : 0 ≤ o := not_lt.mp ‹¬ o < 0›
    have h2 : 0 ≤ o / 100 := div_nonneg h (by norm_num)
    linarith

theorem one_lt_americanToDecimal (o : Rat) (ho : o ≠ 0) : 1 < americanToDecimal o := by
  unfold americanToDecimal
  split
  · have h1 : 0 < |o| := abs_pos.mpr (ne_of_lt ‹o < 0›)
    have h2 : 0 < (100 : Rat) / |o| := div_pos (by norm_num) h1
    linarith
  · have h : 0 < o := lt_of_le_of_ne (not_lt.mp ‹¬ o < 0›) (Ne.symm ho)
    have h2 : 0 < o / 100 := div_pos h (by norm_num)
    linarith

theorem americanToDecimal_pos (o : Rat) : 0 < americanToDecimal o :=
  lt_of_lt_of_le one_pos (one_le_americanToDecimal o)

theorem americanToDecimal_ne_zero (o : Rat) : americanToDecimal o ≠ 0 :=
  ne_of_gt (americanToDecimal_pos o)

theorem impliedProb_eq_inv_decimal (o : Rat) :
    americanToImpliedProbability o = 1 / americanToDecimal o := by
  unfold americanToImpliedProbability americanToDecimal
  split
  · have h1 : |o| ≠ 0 := ne_of_gt (abs_pos.mpr (ne_of_lt ‹o < 0›))
    have e1 : 100 / |o| + 1 = (100 + |o|) / |o| := by field_simp
    rw [e1, one_div_div, add_comm]
  · have h : 0 ≤ o := not_lt.mp ‹¬ o < 0›
    have e1 : o / 100 + 1 = (o + 100) / 100 := by field_simp
    rw [e1, one_div_div]

/-! ## Claim theorems -/

/-- Claim C2: zero-odds rejection.  The code does NOT reject zero odds:
`americanToDecimal(0)` takes the non-negative branch and returns the value 1,
and consequently the Kelly denominator `decimalOdds - 1` is 0, so
`calculateKellyCriterion` with positive EV and zero odds divides by zero
(which in JavaScript silently yields `Infinity`). -/
theorem americanToDecimal_zero_returns_value :
    americanToDecimal 0 = 1 ∧ americanToDecimal 0 - 1 = 0 := by
  norm_num [americanToDecimal]

/-- Claim C5: EV sign consistency.  For p ∈ (0,1) and nonzero odds o,
`calculateEVPercentage p o > 0` iff `p > americanToImpliedProbability o`. -/
theorem ev_sign_consistency (p o : Rat) (hp0 : 0 < p) (hp1 : p < 1) (ho : o ≠ 0) :
    0 < calculateEVPercentage p o ↔ americanToImpliedProbability o < p := by
  rw [impliedProb_eq_inv_decimal]
  have hd : 0 < americanToDecimal o := americanToDecimal_pos o
  have key : calculateEVPercentage p o = p * americanToDecimal o - 1 := by
    unfold calculateEVPercentage
    ring
  rw [key, div_lt_iff hd]
  constructor <;> intro h <;> linarith

/-- Witness for C5 at p = 0.55, o = -110. -/
theorem ev_sign_consistency_witness :
    0 < calculateEVPercentage (11/20) (-110) ↔
      americanToImpliedProbability (-110) < 11/20 :=
  ev_sign_consistency (11/20) (-110) (by norm_num) (by norm_num) (by norm_num)

/-- Claim C6: Kelly non-negativity and stake scaling.  Non-positive EV gives
exactly 0; positive EV with nonzero odds gives `ev / (decimalOdds - 1)`,
strictly positive; `calculateBetSize` multiplies bankroll, Kelly fraction and
the scale factor 1, 0.5 or 0.25; and the concrete values
`calculateKellyCriterion(0.05, -110) = 0.055` and
`calculateBetSize(1000, 0.055, "half") = 27.5` hold exactly. -/
theorem kelly_nonnegativity_and_scaling :
    (∀ ev o : Rat, ev ≤ 0 → calculateKellyCriterion ev o = 0) ∧
    (∀ ev o : Rat, 0 < ev → o ≠ 0 →
      calculateKellyCriterion ev o = ev / (americanToDecimal o - 1) ∧
      0 < calculateKellyCriterion ev o) ∧
    (∀ bankroll kelly : Rat,
      calculateBetSize bankroll kelly KellyScale.full = bankroll * kelly * 1 ∧
      calculateBetSize bankroll kelly KellyScale.half = bankroll * kelly * (1/2) ∧
      calculateBetSize bankroll kelly KellyScale.quarter = bankroll * kelly * (1/4)) ∧
    calculateKellyCriterion (1/20) (-110) = 11/200 ∧
    calculateBetSize 1000 (11/200) KellyScale.half = 55/2 := by
  refine ⟨?_, ?_, ?_, ?_, ?_⟩
  · intro ev o h
    unfold calculateKellyCriterion
    rw [if_pos h]
  · intro ev o hev ho
    have hd : 0 < americanToDecimal o - 1 := by
      have := one_lt_americanToDecimal o ho
      linarith
    have hpos : 0 < ev / (americanToDecimal o - 1) := div_pos hev hd
    have heq : calculateKellyCriterion ev o = ev / (americanToDecimal o - 1) := by
      unfold calculateKellyCriterion
      rw [if_neg (not_le.mpr hev), max_eq_right (le_of_lt hpos)]
    exact ⟨heq, heq ▸ hpos⟩
  · intro b k
    exact ⟨rfl, rfl, rfl⟩
  · norm_num [calculateKellyCriterion, americanToDecimal]
  · norm_num [calculateBetSize, fractionMap]

/-- Witness for C6 at ev = -0.1 and ev = 0.05 with o = -110. -/
theorem kelly_nonnegativity_witness :
    calculateKellyCriterion (-1/10) (-110) = 0 ∧
    (calculateKellyCriterion (1/20) (-110) = (1/20) / (americanToDecimal (-110) - 1) ∧
      0 < calculateKellyCriterion (1/20) (-110)) :=
  ⟨kelly_nonnegativity_and_scaling.1 (-1/10) (-110) (by norm_num),
   kelly_nonnegativity_and_scaling.2.1 (1/20) (-110) (by norm_num) (by norm_num)⟩

/-- Claim C7: implied-probability formula and bounds.  For nonzero o the
branch formulas hold and the result lies strictly between 0 and 1. -/
theorem impliedProbability_formula_and_bounds (o : Rat) (ho : o ≠ 0) :
    (o < 0 → americanToImpliedProbability o = |o| / (|o| + 100)) ∧
    (0 < o → americanToImpliedProbability o = 100 / (o + 100)) ∧
    0 < americanToImpliedProbability o ∧ americanToImpliedProbability o < 1 := by
  refine ⟨?_, ?_, ?_, ?_⟩
  · intro h
    unfold americanToImpliedProbability
    rw [if_pos h]
  · intro h
    unfold americanToImpliedProbability
    rw [if_neg (not_lt.mpr (le_of_lt h))]
  · unfold americanToImpliedProbability
    split
    · have h1 : 0 < |o| := abs_pos.mpr (ne_of_lt ‹o < 0›)
      exact div_pos h1 (by linarith)
    · have h : 0 < o := lt_of_le_of_ne (not_lt.mp ‹¬ o < 0›) (Ne.symm ho)
      exact div_pos (by norm_num) (by linarith)
  · unfold americanToImpliedProbability
    split
    · have h1 : 0 < |o| := abs_pos.mpr (ne_of_lt ‹o < 0›)
      rw [div_lt_one (by linarith)]
      linarith
    · have h : 0 < o := lt_of_le_of_ne (not_lt.mp ‹¬ o < 0›) (Ne.symm ho)
      rw [div_lt_one (by linarith)]
      linarith

/-- Witness for C7 at o = -110. -/
theorem impliedProbability_bounds_witness :
    0 < americanToImpliedProbability (-110) ∧
      americanToImpliedProbability (-110) < 1 :=
  (impliedProbability_formula_and_bounds (-110) (by norm_num)).2.2

/-- Counterexample to claim C3 as stated: at o = -100 the decimal odds are
exactly 2, `decimalToAmerican` takes the underdog branch and returns +100,
which is 200 away from -100 — not within the claimed ±1 tolerance. -/
theorem roundtrip_neg100_counterexample :
    decimalToAmerican (americanToDecimal (-100)) = 100 ∧
    ¬ (decimalToAmerican (americanToDecimal (-100)) - (-100)).natAbs ≤ 1 := by
  have h : decimalToAmerican (americanToDecimal (-100)) = 100 := by
    norm_num [decimalToAmerican, americanToDecimal, jsRound]
  refine ⟨h, ?_⟩
  rw [h]
  norm_num

/-- Claim C3 (amended): for every integer o with |o| ∈ [100, 10000] the
round-trip `decimalToAmerican (americanToDecimal o)` reproduces o exactly,
except at the branch boundary o = -100 (decimal odds exactly 2), where it
returns +100. -/
theorem roundtrip_american (o : Int) (h1 : (100 : Int) ≤ |o|) (h2 : |o| ≤ 10000) :
    decimalToAmerican (americanToDecimal (o : Rat)) =
      (if o = -100 then 100 else o) := by
  rcases abs_cases o with ⟨habs, hsign⟩ | ⟨habs, hsign⟩
  · -- 0 ≤ o, so 100 ≤ o: positive odds round-trip exactly
    have ho : (100 : Int) ≤ o := habs ▸ h1
    have hne : o ≠ -100 := by omega
    rw [if_neg hne]
    have hoR : (100 : Rat) ≤ (o : Rat) := by exact_mod_cast ho
    have hnotneg : ¬ ((o : Rat) < 0) := by push_neg; linarith
    unfold americanToDecimal
    rw [if_neg hnotneg]
    unfold decimalToAmerican
    have h2le : (2 : Rat) ≤ (o : Rat) / 100 + 1 := by
      have : (1 : Rat) ≤ (o : Rat) / 100 := by
        rw [le_div_iff (by norm_num : (0 : Rat) < 100)]
        linarith
      linarith
    rw [if_pos h2le]
    have e : ((o : Rat) / 100 + 1 - 1) * 100 = (o : Rat) := by
      field_simp
    rw [e, jsRound_intCast]
  · -- o ≤ 0, so o ≤ -100
    have ho : o ≤ -100 := by omega
    by_cases hcase : o = -100
    · subst hcase
      rw [if_pos rfl]
      norm_num [americanToDecimal, decimalToAmerican, jsRound]
    · rw [if_neg hcase]
      have ho' : o ≤ -101 := by omega
      have hoR : (o : Rat) ≤ -101 := by exact_mod_cast ho'
      have hneg : (o : Rat) < 0 := by linarith
      unfold americanToDecimal
      rw [if_pos hneg, abs_of_neg hneg]
      unfold decimalToAmerican
      have hpos : (0 : Rat) < -(o : Rat) := by linarith
      have hlt2 : ¬ ((2 : Rat) ≤ 100 / (-(o : Rat)) + 1) := by
        push_neg
        have : (100 : Rat) / (-(o : Rat)) < 1 := by
          rw [div_lt_one hpos]
          linarith
        linarith
      rw [if_neg hlt2]
      have hne0 : -(o : Rat) ≠ 0 := ne_of_gt hpos
      have e : (-100 : Rat) / (100 / (-(o : Rat)) + 1 - 1) = (o : Rat) := by
        rw [add_sub_cancel_right, div_div_eq_mul_div]
        field_simp
      rw [e, jsRound_intCast]

/-- Witness for C3 at the boundary o = -100. -/
theorem roundtrip_american_witness :
    decimalToAmerican (americanToDecimal ((-100 : Int) : Rat)) =
      (if (-100 : Int) = -100 then 100 else (-100 : Int)) :=
  roundtrip_american (-100) (by norm_num) (by norm_num)

/-- Claim C4: arbitrage detection.  `hasArbitrage` is true iff the implied
probabilities sum to strictly less than 1; `arbPercentage` is
`(1/probSum - 1) * 100` when arbitrage exists and exactly 0 otherwise;
`detectArbitrage(-110, -110)` reports no arbitrage and
`detectArbitrage(+150, +150)` reports arbitrage with percentage exactly 25. -/
theorem detectArbitrage_spec (oddsA oddsB : Rat) (hA : oddsA ≠ 0) (hB : oddsB ≠ 0) :
    ((detectArbitrage oddsA oddsB).hasArbitrage = true ↔
      americanToImpliedProbability oddsA + americanToImpliedProbability oddsB < 1) ∧
    (detectArbitrage oddsA oddsB).arbPercentage =
      (if americanToImpliedProbability oddsA + americanToImpliedProbability oddsB < 1
        then (1 / (americanToImpliedProbability oddsA + americanToImpliedProbability oddsB) - 1) * 100
        else 0) ∧
    (detectArbitrage (-110) (-110)).hasArbitrage = false ∧
    (detectArbitrage 150 150).hasArbitrage = true ∧
    (detectArbitrage 150 150).arbPercentage = 25 := by
  refine ⟨?_, ?_, ?_, ?_, ?_⟩
  · simp [detectArbitrage]
  · simp [detectArbitrage]
  · norm_num [detectArbitrage, americanToImpliedProbability]
  · norm_num [detectArbitrage, americanToImpliedProbability]
  · norm_num [detectArbitrage, americanToImpliedProbability]

/-- Witness for C4 at oddsA = oddsB = -110. -/
theorem detectArbitrage_spec_witness :
    ((detectArbitrage (-110) (-110)).hasArbitrage = true ↔
      americanToImpliedProbability (-110) + americanToImpliedProbability (-110) < 1) ∧
    (detectArbitrage (-110) (-110)).arbPercentage =
      (if americanToImpliedProbability (-110) + americanToImpliedProbability (-110) < 1
        then (1 / (americanToImpliedProbability (-110) + americanToImpliedProbability (-110)) - 1) * 100
        else 0) ∧
    (detectArbitrage (-110) (-110)).hasArbitrage = false ∧
    (detectArbitrage 150 150).hasArbitrage = true ∧
    (detectArbitrage 150 150).arbPercentage = 25 :=
  detectArbitrage_spec (-110) (-110) (by norm_num) (by norm_num)

/-- Claim C1: hedge equalization.  For every candidate counter-odds oB in the
testOdds list, with nonzero sideAOdds and oB, the scenario's hedge stake is
(the 2-decimal rounding of) `betAmount * americanToDecimal(sideAOdds) /
americanToDecimal(oB)`, the profit if side A wins equals the profit if side B
wins exactly, and locking -110 with a 1000 stake hedged at +100 yields a
hedge stake within 0.1 of 954.5 and a profit within 0.1 of -45.5. -/
theorem arb_hedge_equalization (sideAOdds betAmount : Rat) (testOdds : List Rat)
    (oB : Rat) (hmem : oB ∈ testOdds) (hA : sideAOdds ≠ 0) (hB : oB ≠ 0) :
    (∃ s ∈ calculateArbProfitScenarios sideAOdds betAmount testOdds,
      s.odds = oB ∧
      s.requiredBet =
        round2 (betAmount * americanToDecimal sideAOdds / americanToDecimal oB)) ∧
    betAmount * americanToDecimal sideAOdds - betAmount
        - betAmount * americanToDecimal sideAOdds / americanToDecimal oB
      = betAmount * americanToDecimal sideAOdds / americanToDecimal oB
          * americanToDecimal oB
        - betAmount * americanToDecimal sideAOdds / americanToDecimal oB
        - betAmount ∧
    |(calculateArbProfitScenarios (-110) 1000 [100]).headI.requiredBet - 1909/2|
        ≤ 1/10 ∧
    |(calculateArbProfitScenarios (-110) 1000 [100]).headI.profit - (-91/2)|
        ≤ 1/10 := by
  refine ⟨?_, ?_, ?_, ?_⟩
  · exact ⟨_, List.mem_map_of_mem _ hmem, rfl, rfl⟩
  · have hd : americanToDecimal oB ≠ 0 := americanToDecimal_ne_zero oB
    have e : betAmount * americanToDecimal sideAOdds / americanToDecimal oB
        * americanToDecimal oB = betAmount * americanToDecimal sideAOdds :=
      div_mul_cancel₀ _ hd
    rw [e]
    ring
  · have h : (calculateArbProfitScenarios (-110) 1000 [100]).headI.requiredBet
        = 19091/20 := by
      norm_num [calculateArbProfitScenarios, americanToDecimal, round2, jsRound,
        List.headI]
    rw [h, abs_le]
    norm_num
  · have h : (calculateArbProfitScenarios (-110) 1000 [100]).headI.profit
        = -909/20 := by
      norm_num [calculateArbProfitScenarios, americanToDecimal, round2, jsRound,
        List.headI]
    rw [h, abs_le]
    norm_num

/-- Witness for C1 at sideAOdds = -110, betAmount = 1000, testOdds = [100]. -/
theorem arb_hedge_equalization_witness :
    (∃ s ∈ calculateArbProfitScenarios (-110) 1000 [100],
      s.odds = 100 ∧
      s.requiredBet =
        round2 (1000 * americanToDecimal (-110) / americanToDecimal 100)) ∧
    1000 * americanToDecimal (-110) - 1000
        - 1000 * americanToDecimal (-110) / americanToDecimal 100
      = 1000 * americanToDecimal (-110) / americanToDecimal 100
          * americanToDecimal 100
        - 1000 * americanToDecimal (-110) / americanToDecimal 100
        - 1000 ∧
    |(calculateArbProfitScenarios (-110) 1000 [100]).headI.requiredBet - 1909/2|
        ≤ 1/10 ∧
    |(calculateArbProfitScenarios (-110) 1000 [100]).headI.profit - (-91/2)|
        ≤ 1/10 :=
  arb_hedge_equalization (-110) 1000 [100] 100 (by simp) (by norm_num) (by norm_num)

/-- Claim C10: scenario output shape and rounding.  The result has one
scenario per element of testOdds, in order; the i-th scenario carries the
i-th candidate odds, its requiredBet and profit are the 2-decimal roundings
of the raw hedge stake and raw profit, its roi is the 4-decimal rounding of
profit over total risk, and roi is 0 when the total risk is not positive;
calling without a testOdds list uses the ten default candidates. -/
theorem arbScenarios_shape (sideAOdds betAmount : Rat) (testOdds : List Rat)
    (i : Nat) (h : i < testOdds.length) :
    (calculateArbProfitScenarios sideAOdds betAmount testOdds).length
        = testOdds.length ∧
    calculateArbProfitScenariosDefault sideAOdds betAmount =
      calculateArbProfitScenarios sideAOdds betAmount
        [-150, -140, -130, -120, -110, 110, 120, 130, 140, 150] ∧
    ∃ s : HedgeScenario,
      (calculateArbProfitScenarios sideAOdds betAmount testOdds)[i]? = some s ∧
      s.odds = testOdds[i] ∧
      s.requiredBet = round2 (betAmount * americanToDecimal sideAOdds
        / americanToDecimal (testOdds[i])) ∧
      s.profit = round2 (betAmount * americanToDecimal sideAOdds - betAmount
        - betAmount * americanToDecimal sideAOdds / americanToDecimal (testOdds[i])) ∧
      s.roi = round4 (if 0 < betAmount + betAmount * americanToDecimal sideAOdds
            / americanToDecimal (testOdds[i])
          then (betAmount * americanToDecimal sideAOdds - betAmount
              - betAmount * americanToDecimal sideAOdds / americanToDecimal (testOdds[i]))
            / (betAmount + betAmount * americanToDecimal sideAOdds
              / americanToDecimal (testOdds[i]))
          else 0) ∧
      (¬ 0 < betAmount + betAmount * americanToDecimal sideAOdds
          / americanToDecimal (testOdds[i]) →
        s.roi = 0) := by
  refine ⟨by simp [calculateArbProfitScenarios], rfl, ?_⟩
  have hsome : (calculateArbProfitScenarios sideAOdds betAmount testOdds)[i]? =
      some ⟨testOdds[i],
        round2 (betAmount * americanToDecimal sideAOdds
          / americanToDecimal (testOdds[i])),
        round2 (betAmount * americanToDecimal sideAOdds - betAmount
          - betAmount * americanToDecimal sideAOdds / americanToDecimal (testOdds[i])),
        round4 (if 0 < betAmount + betAmount * americanToDecimal sideAOdds
              / americanToDecimal (testOdds[i])
            then (betAmount * americanToDecimal sideAOdds - betAmount
                - betAmount * americanToDecimal sideAOdds
                  / americanToDecimal (testOdds[i]))
              / (betAmount + betAmount * americanToDecimal sideAOdds
                / americanToDecimal (testOdds[i]))
            else 0)⟩ := by
    simp [calculateArbProfitScenarios, List.getElem?_map,
      List.getElem?_eq_getElem h]
  refine ⟨_, hsome, rfl, rfl, rfl, rfl, ?_⟩
  intro hn
  show round4 _ = 0
  rw [if_neg hn]
  norm_num [round4, jsRound]

/-- Witness for C10 at sideAOdds = -110, betAmount = 1000, testOdds = [100],
i = 0. -/
theorem arbScenarios_shape_witness :
    (calculateArbProfitScenarios (-110) 1000 [100]).length = ([100] : List Rat).length ∧
    calculateArbProfitScenariosDefault (-110) 1000 =
      calculateArbProfitScenarios (-110) 1000
        [-150, -140, -130, -120, -110, 110, 120, 130, 140, 150] ∧
    ∃ s : HedgeScenario,
      (calculateArbProfitScenarios (-110) 1000 [100])[0]? = some s ∧
      s.odds = ([100] : List Rat)[0] ∧
      s.requiredBet = round2 (1000 * americanToDecimal (-110)
        / americanToDecimal (([100] : List Rat)[0])) ∧
      s.profit = round2 (1000 * americanToDecimal (-110) - 1000
        - 1000 * americanToDecimal (-110) / americanToDecimal (([100] : List Rat)[0])) ∧
      s.roi = round4 (if 0 < 1000 + 1000 * americanToDecimal (-110)
            / americanToDecimal (([100] : List Rat)[0])
          then (1000 * americanToDecimal (-110) - 1000
              - 1000 * americanToDecimal (-110) / americanToDecimal (([100] : List Rat)[0]))
            / (1000 + 1000 * americanToDecimal (-110)
              / americanToDecimal (([100] : List Rat)[0]))
          else 0) ∧
      (¬ 0 < 1000 + 1000 * americanToDecimal (-110)
          / americanToDecimal (([100] : List Rat)[0]) →
        s.roi = 0) :=
  arbScenarios_shape (-110) 1000 [100] 0 (by norm_num)

/-- Evaluation of `completeAnalysis` at sharpsOdds = -110, pmOdds = +150,
probability 0.55, bankroll 1000 (shared by the C8 theorems). -/
theorem completeAnalysis_eval_110_150 :
    completeAnalysis (-110) 150 (11/20) 1000 =
      ⟨11/21, 2/5, 1/20, 3/8, Side.pm, 3/8, 1/4, 125, 125/2, ⟨true, 800/97⟩⟩ := by
  have hng : ¬ (calculateEVPercentage (11/20) ((-110) : Rat) >
      calculateEVPercentage (11/20) 150) := by
    norm_num [calculateEVPercentage, americanToDecimal]
  have hside : Side.pm ≠ Side.sharps := by simp
  simp only [completeAnalysis, if_neg hng, if_neg hside]
  norm_num [calculateEVPercentage, americanToDecimal, americanToImpliedProbability,
    calculateKellyCriterion, calculateBetSize, fractionMap, detectArbitrage]

/-- Counterexample to claim C8 as stated: `completeAnalysis` does not compute
all three stake scales.  At sharpsOdds = -110, pmOdds = +150, probability
0.55, bankroll 1000, the full-scale stake bankroll × kelly × 1 would be 250,
but no numeric field of the returned record equals 250: only the half and
quarter stake scales (125 and 62.5) are computed. -/
theorem completeAnalysis_no_full_stake :
    calculateBetSize 1000
        (completeAnalysis (-110) 150 (11/20) 1000).fullKellyPercent
        KellyScale.full = 250 ∧
    (completeAnalysis (-110) 150 (11/20) 1000).sharpsImpliedProb ≠ 250 ∧
    (completeAnalysis (-110) 150 (11/20) 1000).pmImpliedProb ≠ 250 ∧
    (completeAnalysis (-110) 150 (11/20) 1000).edgeVsSharps ≠ 250 ∧
    (completeAnalysis (-110) 150 (11/20) 1000).edgeVsPM ≠ 250 ∧
    (completeAnalysis (-110) 150 (11/20) 1000).evPercentage ≠ 250 ∧
    (completeAnalysis (-110) 150 (11/20) 1000).fullKellyPercent ≠ 250 ∧
    (completeAnalysis (-110) 150 (11/20) 1000).halfKellyBetSize ≠ 250 ∧
    (completeAnalysis (-110) 150 (11/20) 1000).quarterKellyBetSize ≠ 250 ∧
    (completeAnalysis (-110) 150 (11/20) 1000).arbInfo.arbPercentage ≠ 250 := by
  rw [completeAnalysis_eval_110_150]
  norm_num [calculateBetSize, fractionMap]

/-- Claim C8 (amended): `completeAnalysis` picks the side with the higher EV
(the second-named side "pm" on an exact tie), computes its full Kelly
fraction from the recommended side's odds, computes the half and quarter
stake scales (but no full-scale stake amount), and reports
`detectArbitrage(sharpsOdds, pmOdds)`. -/
theorem completeAnalysis_spec (sharpsOdds pmOdds p bankroll : Rat) :
    (completeAnalysis sharpsOdds pmOdds p bankroll).recommendedSide =
      (if calculateEVPercentage p sharpsOdds > calculateEVPercentage p pmOdds
        then Side.sharps else Side.pm) ∧
    (completeAnalysis sharpsOdds pmOdds p bankroll).evPercentage =
      (if calculateEVPercentage p sharpsOdds > calculateEVPercentage p pmOdds
        then calculateEVPercentage p sharpsOdds
        else calculateEVPercentage p pmOdds) ∧
    (completeAnalysis sharpsOdds pmOdds p bankroll).fullKellyPercent =
      calculateKellyCriterion
        (completeAnalysis sharpsOdds pmOdds p bankroll).evPercentage
        (if calculateEVPercentage p sharpsOdds > calculateEVPercentage p pmOdds
          then sharpsOdds else pmOdds) ∧
    (completeAnalysis sharpsOdds pmOdds p bankroll).halfKellyBetSize =
      calculateBetSize bankroll
        (completeAnalysis sharpsOdds pmOdds p bankroll).fullKellyPercent
        KellyScale.half ∧
    (completeAnalysis sharpsOdds pmOdds p bankroll).quarterKellyBetSize =
      calculateBetSize bankroll
        (completeAnalysis sharpsOdds pmOdds p bankroll).fullKellyPercent
        KellyScale.quarter ∧
    (completeAnalysis sharpsOdds pmOdds p bankroll).arbInfo =
      detectArbitrage sharpsOdds pmOdds ∧
    (calculateEVPercentage p sharpsOdds = calculateEVPercentage p pmOdds →
      (completeAnalysis sharpsOdds pmOdds p bankroll).recommendedSide = Side.pm) := by
  refine ⟨rfl, ?_, ?_, rfl, rfl, rfl, ?_⟩
  · by_cases h : calculateEVPercentage p sharpsOdds > calculateEVPercentage p pmOdds
    · simp [completeAnalysis, h]
    · simp [completeAnalysis, h]
  · by_cases h : calculateEVPercentage p sharpsOdds > calculateEVPercentage p pmOdds
    · simp [completeAnalysis, h]
    · simp [completeAnalysis, h]
  · intro heq
    have hng : ¬ (calculateEVPercentage p sharpsOdds >
        calculateEVPercentage p pmOdds) := by
      rw [heq]
      exact lt_irrefl _
    simp [completeAnalysis, hng]

/-- Witness for C8's tie-break at sharpsOdds = pmOdds = -110 (equal EVs). -/
theorem completeAnalysis_spec_witness :
    (completeAnalysis (-110) (-110) (1/2) 1000).recommendedSide = Side.pm :=
  (completeAnalysis_spec (-110) (-110) (1/2) 1000).2.2.2.2.2.2 rfl

/-- Claim C9: collaborator input validation.  `validateOdds` accepts exactly
the finite numbers in [-1000, 10000] other than 0; `validateBankroll`
accepts exactly the finite numbers in [0, 1000000]; every rejection carries
a non-empty error message. -/
theorem validators_spec (x : JSNum) :
    ((validateOdds x).isValid = true ↔
      ∃ q : Rat, x = JSNum.num q ∧ -1000 ≤ q ∧ q ≤ 10000 ∧ q ≠ 0) ∧
    ((validateBankroll x).isValid = true ↔
      ∃ q : Rat, x = JSNum.num q ∧ 0 ≤ q ∧ q ≤ 1000000) ∧
    ((validateOdds x).isValid = false →
      ∃ msg : String, (validateOdds x).error = some msg ∧ msg ≠ "") ∧
    ((validateBankroll x).isValid = false →
      ∃ msg : String, (validateBankroll x).error = some msg ∧ msg ≠ "") := by
  rcases x with _ | _ | _ | q
  · refine ⟨?_, ?_, ?_, ?_⟩ <;>
      simp [validateOdds, validateBankroll, jsIsNaN, jsLe, jsLt, jsEqNum]
  · refine ⟨?_, ?_, ?_, ?_⟩ <;>
      simp [validateOdds, validateBankroll, jsIsNaN, jsLe, jsLt, jsEqNum]
  · refine ⟨?_, ?_, ?_, ?_⟩ <;>
      simp [validateOdds, validateBankroll, jsIsNaN, jsLe, jsLt, jsEqNum]
  · refine ⟨?_, ?_, ?_, ?_⟩
    · by_cases h1 : (-1000 : Rat) ≤ q <;> by_cases h2 : q ≤ 10000 <;>
        by_cases h3 : q = 0 <;>
          simp [validateOdds, jsIsNaN, jsLe, jsEqNum, h1, h2, h3]
    · by_cases h1 : q < (0 : Rat)
      · have h1x : ¬ (0 : Rat) ≤ q := not_le.mpr h1
        simp [validateBankroll, jsIsNaN, jsLt, h1, h1x]
      · have h1x : (0 : Rat) ≤ q := not_lt.mp h1
        by_cases h2 : (1000000 : Rat) < q
        · have h2x : ¬ q ≤ (1000000 : Rat) := not_le.mpr h2
          simp [validateBankroll, jsIsNaN, jsLt, h1, h1x, h2, h2x]
        · have h2x : q ≤ (1000000 : Rat) := not_lt.mp h2
          simp [validateBankroll, jsIsNaN, jsLt, h1, h1x, h2, h2x]
    · by_cases h1 : (-1000 : Rat) ≤ q <;> by_cases h2 : q ≤ 10000 <;>
        by_cases h3 : q = 0 <;>
          simp [validateOdds, jsIsNaN, jsLe, jsEqNum, h1, h2, h3]
    · by_cases h1 : q < (0 : Rat)
      · simp [validateBankroll, jsIsNaN, jsLt, h1]
      · by_cases h2 : (1000000 : Rat) < q
        · simp [validateBankroll, jsIsNaN, jsLt, h1, h2]
        · simp [validateBankroll, jsIsNaN, jsLt, h1, h2]

/-- Witness for C9's rejection branch at odds = 0. -/
theorem validators_spec_witness :
    (validateOdds (JSNum.num 0)).isValid = false ∧
    ∃ msg : String, (validateOdds (JSNum.num 0)).error = some msg ∧ msg ≠ "" :=
  ⟨by norm_num [validateOdds, jsIsNaN, jsLe, jsEqNum],
   (validators_spec (JSNum.num 0)).2.2.1
     (by norm_num [validateOdds, jsIsNaN, jsLe, jsEqNum])⟩

end SportsCard
